import Mathlib

/-!
Shallow embedding of the pipeline subsystem of the CRM board
(`src/pages/Pipeline.tsx`): stage store, contact assignment, sale
recording and the board controller handlers.  Persistence is modelled by
explicit state passing: the list of stage rows / contact rows stands for
the database table, and each handler returns the update it issues
together with the observable outcome (prompt shown, error notification).
Prices and sale values (SQL `DECIMAL`, JS `number`) are modelled as `ℚ`.
-/

namespace Crm

/-- A property row, as joined onto a contact (`properties(description, price)`). -/
structure Property where
  description : String
  price : ℚ
deriving Repr, DecidableEq

/-- A contact row as loaded by the pipeline page, with the eagerly joined
optional property.  `stage_id = none` models a SQL NULL stage reference. -/
structure Contact where
  id : String
  name : String
  phone : Option String := none
  email : Option String := none
  stage_id : Option String := none
  visit_date : Option String := none
  sale_date : Option String := none
  sale_value : Option ℚ := none
  properties : Option Property := none
deriving Repr, DecidableEq

/-- A pipeline stage row (`pipeline_stages`). -/
structure Stage where
  id : String
  name : String
  position : Int
  is_default : Bool
deriving Repr, DecidableEq

/-- The partial update object sent to `supabase.from('contacts').update(...)`
by the move handlers.  The `stage_id` key is always present in the source's
`updateData` (its value may be SQL NULL, hence `Option String`); the two sale
keys are present only when the move records a sale, so `none` means the
column is left untouched. -/
structure ContactUpdate where
  stage_id : Option String
  sale_date : Option String
  sale_value : Option ℚ
deriving Repr, DecidableEq

/-- Effect of `{ ...contact, ...updateData }` / of the row update: the stage
reference is overwritten, the sale columns only when present in the update. -/
def applyUpdate (c : Contact) (u : ContactUpdate) : Contact :=
  { c with
    stage_id := u.stage_id
    sale_date := match u.sale_date with
      | some d => some d
      | none => c.sale_date
    sale_value := match u.sale_value with
      | some v => some v
      | none => c.sale_value }

/-- Observable outcome of one contact-move handler invocation:
whether the synchronous `prompt` was shown, the update issued to the
contacts table (`none` when the handler returned without writing), and
whether an error toast was reported. -/
structure MoveEffect where
  prompted : Bool
  update : Option ContactUpdate
  errorReported : Bool
deriving Repr, DecidableEq

/-- The `isMovingToSale` test of both move handlers: the target stage id
equals the id of the first stage named "Venda Ganha" (if any). -/
def isWonTarget (stages : List Stage) (newStageId : String) : Bool :=
  match stages.find? (fun stage => stage.name == "Venda Ganha") with
  | some s => newStageId == s.id
  | none => false

/-- Shallow embedding of `handleContactStatusChange` (Pipeline.tsx 392-450).
The operator's prompt text is modelled after the source's
`parseFloat(prompt(...) || '0')` coercions: `promptParsed = some v` is a
prompt whose effective text parses to the number `v` (a cancelled or empty
prompt is coerced by `|| '0'` to `some 0`), `none` is non-numeric text
(`NaN`, which fails the `saleValue > 0` test). -/
def handleContactStatusChange (stages : List Stage) (contacts : List Contact)
    (contactId : String) (newStageId : String)
    (promptParsed : Option ℚ) (now : String) : MoveEffect :=
  let isMovingToSale := isWonTarget stages newStageId
  let contact := contacts.find? (fun c => c.id == contactId)
  match isMovingToSale, contact with
  | true, some c =>
    let propertyPrice : ℚ :=
      match c.properties with
      | some p => p.price
      | none => 0
    if 0 < propertyPrice then
      ⟨false, some ⟨some newStageId, some now, some propertyPrice⟩, false⟩
    else
      match promptParsed with
      | some v =>
        if 0 < v then ⟨true, some ⟨some newStageId, some now, some v⟩, false⟩
        else ⟨true, none, true⟩
      | none => ⟨true, none, true⟩
  | _, _ => ⟨false, some ⟨some newStageId, none, none⟩, false⟩

/-- Shallow embedding of `handleDragEnd` (Pipeline.tsx 111-183).  `over` is
the drop target (`none` when the card is dropped outside any column, the
source's early `if (!over) return`); `activeId` is the dragged contact. -/
def handleDragEnd (stages : List Stage) (contacts : List Contact)
    (activeId : String) (over : Option String)
    (promptParsed : Option ℚ) (now : String) : MoveEffect :=
  match over with
  | none => ⟨false, none, false⟩
  | some newStageId =>
    let isMovingToSale := isWonTarget stages newStageId
    let contact := contacts.find? (fun c => c.id == activeId)
    match isMovingToSale, contact with
    | true, some c =>
      let propertyPrice : ℚ :=
        match c.properties with
        | some p => p.price
        | none => 0
      if 0 < propertyPrice then
        ⟨false, some ⟨some newStageId, some now, some propertyPrice⟩, false⟩
      else
        match promptParsed with
        | some v =>
          if 0 < v then ⟨true, some ⟨some newStageId, some now, some v⟩, false⟩
          else ⟨true, none, true⟩
        | none => ⟨true, none, true⟩
    | _, _ => ⟨false, some ⟨some newStageId, none, none⟩, false⟩

/-- Effect of a move handler on the local contacts list (`setContacts`):
when an update was issued, the moved contact's row absorbs it. -/
def applyMoveEffect (contacts : List Contact) (contactId : String)
    (eff : MoveEffect) : List Contact :=
  match eff.update with
  | none => contacts
  | some u => contacts.map (fun c => if c.id = contactId then applyUpdate c u else c)

/-- The `[...stages].sort((a, b) => a.position - b.position)` step: a stable
sort of the stage list by ascending position (JS `Array.prototype.sort` is
stable, as is insertion sort). -/
def sortedByPosition (stages : List Stage) : List Stage :=
  List.insertionSort (fun a b => a.position ≤ b.position) stages

/-- Reorder direction of the stage arrows (`'up' | 'down'`). -/
inductive Direction where
  | up
  | down
deriving Repr, DecidableEq

/-- Placeholder row used only for the (unreachable, guard-protected) default
of the list lookup that models `sortedStages[targetIndex]`. -/
def defaultStage : Stage := ⟨"", "", 0, false⟩

/-- One `supabase.from('pipeline_stages').update({ position }).eq('id', ...)`
call applied to the persisted stage rows. -/
def updatePosition (db : List Stage) (stageId : String) (pos : Int) : List Stage :=
  db.map (fun s => if s.id = stageId then { s with position := pos } else s)

/-- Observable outcome of `handleMoveStage`: the persisted stage rows, the
local `stages` state, and whether an error toast was reported. -/
structure MoveStageOutcome where
  db : List Stage
  localStages : List Stage
  errorReported : Bool
deriving Repr, DecidableEq

/-- Shallow embedding of `handleMoveStage` (Pipeline.tsx 267-317).
`stages` is the in-memory list, `db` the persisted rows; `fail1`/`fail2`
model the two update calls returning an error (the source awaits both
calls unconditionally and only then checks `error1 || error2`, so the
second write is attempted even when the first failed). -/
def handleMoveStage (stages db : List Stage) (stageId : String)
    (direction : Direction) (fail1 fail2 : Bool) : MoveStageOutcome :=
  match stages.find? (fun s => s.id == stageId) with
  | none => ⟨db, stages, false⟩
  | some currentStage =>
    let sortedStages := sortedByPosition stages
    let currentIndex := sortedStages.findIdx (fun s => s.id == stageId)
    if (direction = Direction.up ∧ currentIndex = 0) ∨
       (direction = Direction.down ∧ currentIndex = sortedStages.length - 1) then
      ⟨db, stages, false⟩
    else
      let targetIndex := if direction = Direction.up then currentIndex - 1
                         else currentIndex + 1
      let targetStage := sortedStages.getD targetIndex defaultStage
      let db1 := if fail1 then db
                 else updatePosition db currentStage.id targetStage.position
      let db2 := if fail2 then db1
                 else updatePosition db1 targetStage.id currentStage.position
      if fail1 ∨ fail2 then
        ⟨db2, stages, true⟩
      else
        ⟨db2,
         stages.map (fun stage =>
           if stage.id = currentStage.id then { stage with position := targetStage.position }
           else if stage.id = targetStage.id then { stage with position := currentStage.position }
           else stage),
         false⟩

/-- A sequence of reposition requests run against the board, each applied to
the local state of the previous one (all persistence calls succeeding). -/
def runRepositions (stages : List Stage) (reqs : List (String × Direction)) : List Stage :=
  reqs.foldl (fun st r => (handleMoveStage st st r.1 r.2 false false).localStages) stages

/-- The identity-and-name view of a stage, used to state that repositioning
never creates, deletes or renames stages. -/
def idName (s : Stage) : String × String := (s.id, s.name)

/-- Observable outcome of `handleDeleteStage`: resulting stage list and
whether an error toast was reported. -/
structure DeleteOutcome where
  stages : List Stage
  errorReported : Bool
deriving Repr, DecidableEq

/-- Shallow embedding of `handleDeleteStage` (Pipeline.tsx 319-353): refuse
(with an error toast) when some contact references the stage, otherwise
delete the row and drop it from the local list. -/
def handleDeleteStage (stages : List Stage) (contacts : List Contact)
    (stageId : String) : DeleteOutcome :=
  if contacts.any (fun contact => contact.stage_id == some stageId) then
    ⟨stages, true⟩
  else
    ⟨stages.filter (fun stage => stage.id != stageId), false⟩

/-- The stage-column delete control (Pipeline.tsx 676-685) is rendered only
for non-default stages; this is the sole guard on deleting default stages. -/
def deleteButtonRendered (stage : Stage) : Bool :=
  !stage.is_default

/-- The row inserted by `handleAddStage`. -/
structure NewStageRow where
  name : String
  position : Int
  user_id : String
  is_default : Bool
deriving Repr, DecidableEq

/-- Observable outcome of `handleAddStage`: the inserted row, if any, and
whether an error toast was reported. -/
structure AddStageOutcome where
  inserted : Option NewStageRow
  errorReported : Bool
deriving Repr, DecidableEq

/-- The blank test `!newStageName.trim()`: the trimmed string is empty
exactly when every character is whitespace. -/
def isBlank (s : String) : Bool :=
  s.data.all Char.isWhitespace

/-- Shallow embedding of `handleAddStage` (Pipeline.tsx 355-390): a blank
name hits `if (!newStageName.trim()) return;` — nothing is inserted and no
notification is shown; otherwise a row is inserted with the untrimmed name,
`position = Math.max(...stages.map(s => s.position), 0) + 1` and
`is_default: false`. -/
def handleAddStage (stages : List Stage) (newStageName : String)
    (userId : String) : AddStageOutcome :=
  if isBlank newStageName then ⟨none, false⟩
  else
    let maxPosition := (stages.map (fun s => s.position)).foldl max 0
    ⟨some ⟨newStageName, maxPosition + 1, userId, false⟩, false⟩

/-- Observable outcome of `handleEditStageName`. -/
structure RenameOutcome where
  stages : List Stage
  errorReported : Bool
deriving Repr, DecidableEq

/-- Shallow embedding of `handleEditStageName` (Pipeline.tsx 235-265): the
update is issued unconditionally — there is no existence check and no
emptiness check on the new name — and only the matching stage's name is
rewritten in the local list. -/
def handleEditStageName (stages : List Stage) (stageId newName : String) :
    RenameOutcome :=
  ⟨stages.map (fun stage =>
     if stage.id = stageId then { stage with name := newName } else stage),
   false⟩

/-- The update object `{ stage_id: null }` sent by
`handleRemoveContactFromPipeline`: the stage key set to NULL, sale columns
absent. -/
def removeContactUpdate : ContactUpdate := ⟨none, none, none⟩

/-- Shallow embedding of `handleRemoveContactFromPipeline`
(Pipeline.tsx 452-481) on the local contacts list. -/
def handleRemoveContactFromPipeline (contacts : List Contact)
    (contactId : String) : List Contact :=
  contacts.map (fun c => if c.id = contactId then { c with stage_id := none } else c)

/-! Concrete rows used by witnesses and counterexamples. -/

/-- The distinguished won stage of the seeded defaults. -/
def stageWon : Stage := ⟨"w", "Venda Ganha", 4, true⟩

/-- A non-won stage. -/
def stageEmAtendimento : Stage := ⟨"e", "Em Atendimento", 2, true⟩

/-- A contact associated with a priced property (spec scenario "Maria"). -/
def maria : Contact :=
  { id := "m", name := "Maria", properties := some ⟨"Apto", 350000⟩ }

/-- A contact with no associated property (spec scenario "Joao"). -/
def joao : Contact := { id := "j", name := "Joao" }

/-- Maria after a recorded sale: in the won stage with sale data stamped. -/
def mariaSold : Contact :=
  { maria with
    stage_id := some "w"
    sale_date := some "t0"
    sale_value := some 350000 }

/-- Helper: a stage whose name is "Venda Ganha" and whose id is the move
target makes the won-target test true. -/
theorem isWonTarget_of_find (stages : List Stage) (w : Stage)
    (hw : stages.find? (fun stage => stage.name == "Venda Ganha") = some w) :
    isWonTarget stages w.id = true := by
  simp [isWonTarget, hw]

/-- Claim C1: moving a contact whose associated property has price > 0 to
the distinguished won stage (the stage named "Venda Ganha") never prompts
the operator, and issues a single contacts-table update carrying the new
stage reference, `sale_date = now` and `sale_value` equal to the property
price, with no error; this holds identically for the drag handler and the
status-change handler, for every prompt environment. -/
theorem moveToWonWithPrice_spec (stages : List Stage) (contacts : List Contact)
    (contactId newStageId now : String) (promptParsed : Option ℚ)
    (w : Stage) (c : Contact) (p : Property)
    (hw : stages.find? (fun stage => stage.name == "Venda Ganha") = some w)
    (hid : newStageId = w.id)
    (hc : contacts.find? (fun x => x.id == contactId) = some c)
    (hp : c.properties = some p)
    (hprice : 0 < p.price) :
    handleDragEnd stages contacts contactId (some newStageId) promptParsed now =
      ⟨false, some ⟨some newStageId, some now, some p.price⟩, false⟩ ∧
    handleContactStatusChange stages contacts contactId newStageId promptParsed now =
      ⟨false, some ⟨some newStageId, some now, some p.price⟩, false⟩ := by
  have hwon : isWonTarget stages newStageId = true := by
    rw [hid]; exact isWonTarget_of_find stages w hw
  refine ⟨?_, ?_⟩ <;>
    simp [handleDragEnd, handleContactStatusChange, hwon, hc, hp, hprice]

/-- Claim C1 witness: Maria's property is priced 350000, so dropping her on
the won stage stamps `sale_value = 350000` and `sale_date = now` together
with the stage in one update, without consulting the prompt. -/
theorem moveToWonWithPrice_witness :
    handleDragEnd [stageEmAtendimento, stageWon] [maria, joao] "m" (some "w")
        none "t0" =
      ⟨false, some ⟨some "w", some "t0", some 350000⟩, false⟩ ∧
    handleContactStatusChange [stageEmAtendimento, stageWon] [maria, joao] "m" "w"
        none "t0" =
      ⟨false, some ⟨some "w", some "t0", some 350000⟩, false⟩ :=
  moveToWonWithPrice_spec [stageEmAtendimento, stageWon] [maria, joao] "m" "w"
    "t0" none stageWon maria ⟨"Apto", 350000⟩ (by decide) rfl (by decide) rfl
    (by decide)

/-- Claim C2: moving a contact with no associated property (or property
price 0) to the won stage prompts the operator, and an operator-supplied
value ≤ 0 (a cancelled or empty prompt is coerced to 0 by the source's
`|| '0'`) aborts the whole move: no update is issued — so the contact's
stage and sale fields are unchanged — and an error is reported; identically
for both handlers. -/
theorem moveToWonInvalidValue_spec (stages : List Stage) (contacts : List Contact)
    (contactId newStageId now : String) (v : ℚ)
    (w : Stage) (c : Contact)
    (hw : stages.find? (fun stage => stage.name == "Venda Ganha") = some w)
    (hid : newStageId = w.id)
    (hc : contacts.find? (fun x => x.id == contactId) = some c)
    (hp : c.properties = none ∨ ∃ p, c.properties = some p ∧ p.price = 0)
    (hv : v ≤ 0) :
    handleDragEnd stages contacts contactId (some newStageId) (some v) now =
      ⟨true, none, true⟩ ∧
    handleContactStatusChange stages contacts contactId newStageId (some v) now =
      ⟨true, none, true⟩ ∧
    applyMoveEffect contacts contactId ⟨true, none, true⟩ = contacts := by
  have hwon : isWonTarget stages newStageId = true := by
    rw [hid]; exact isWonTarget_of_find stages w hw
  have hnv : ¬ (0 < v) := not_lt.mpr hv
  rcases hp with hp | ⟨p, hp, hp0⟩
  · exact ⟨by simp [handleDragEnd, hwon, hc, hp, hnv],
           by simp [handleContactStatusChange, hwon, hc, hp, hnv], rfl⟩
  · exact ⟨by simp [handleDragEnd, hwon, hc, hp, hnv, hp0],
           by simp [handleContactStatusChange, hwon, hc, hp, hnv, hp0], rfl⟩

/-- Claim C2 witness: Joao has no property; entering 0 at the prompt (also
the result of cancelling it) aborts the move with an error and leaves the
contacts list unchanged. -/
theorem moveToWonInvalidValue_witness :
    handleDragEnd [stageEmAtendimento, stageWon] [maria, joao] "j" (some "w")
        (some 0) "t0" = ⟨true, none, true⟩ ∧
    handleContactStatusChange [stageEmAtendimento, stageWon] [maria, joao] "j" "w"
        (some 0) "t0" = ⟨true, none, true⟩ ∧
    applyMoveEffect [maria, joao] "j" ⟨true, none, true⟩ = [maria, joao] :=
  moveToWonInvalidValue_spec [stageEmAtendimento, stageWon] [maria, joao] "j" "w"
    "t0" 0 stageWon joao (by decide) rfl (by decide) (Or.inl rfl) (by decide)

/-- Claim C3: moving a contact to any target that is not the distinguished
won stage issues an update that carries only the stage reference — the
sale keys are absent, no prompt, no error — and applying that update to any
contact changes its stage reference and nothing else. -/
theorem moveToNonWon_spec (stages : List Stage) (contacts : List Contact)
    (contactId newStageId now : String) (promptParsed : Option ℚ)
    (hnw : isWonTarget stages newStageId = false) :
    handleDragEnd stages contacts contactId (some newStageId) promptParsed now =
      ⟨false, some ⟨some newStageId, none, none⟩, false⟩ ∧
    handleContactStatusChange stages contacts contactId newStageId promptParsed now =
      ⟨false, some ⟨some newStageId, none, none⟩, false⟩ ∧
    ∀ c : Contact, applyUpdate c ⟨some newStageId, none, none⟩ =
      { c with stage_id := some newStageId } := by
  refine ⟨?_, ?_, fun c => rfl⟩ <;>
    simp [handleDragEnd, handleContactStatusChange, hnw]

/-- Claim C3 witness: moving Maria (who even has sale data) to the
non-won stage "Em Atendimento" touches only her stage reference. -/
theorem moveToNonWon_witness :
    handleDragEnd [stageEmAtendimento, stageWon] [maria, joao] "m" (some "e")
        (some 5) "t0" = ⟨false, some ⟨some "e", none, none⟩, false⟩ ∧
    handleContactStatusChange [stageEmAtendimento, stageWon] [maria, joao] "m" "e"
        (some 5) "t0" = ⟨false, some ⟨some "e", none, none⟩, false⟩ ∧
    ∀ c : Contact, applyUpdate c ⟨some "e", none, none⟩ =
      { c with stage_id := some "e" } :=
  moveToNonWon_spec [stageEmAtendimento, stageWon] [maria, joao] "m" "e" "t0"
    (some 5) (by decide)

/-- Claim C9: removing a contact from the pipeline issues the update
`{ stage_id: null }`, whose application sets the stage reference to NULL
and preserves every other field — in particular previously set sale
fields — and the local list rewrites only the matching contact that way. -/
theorem removeFromPipeline_spec (contacts : List Contact) (contactId : String) :
    (∀ c : Contact, applyUpdate c removeContactUpdate = { c with stage_id := none }) ∧
    ∀ (k : Nat) (c : Contact), contacts[k]? = some c →
      (handleRemoveContactFromPipeline contacts contactId)[k]? =
        some (if c.id = contactId then { c with stage_id := none } else c) := by
  refine ⟨fun c => rfl, fun k c hc => ?_⟩
  simp [handleRemoveContactFromPipeline, List.getElem?_map, hc]

/-- Claim C9 witness: Maria, holding recorded sale data and a won stage,
is unassigned — her stage becomes NULL while `sale_date`/`sale_value` and
all other fields survive. -/
theorem removeFromPipeline_witness :
    applyUpdate mariaSold removeContactUpdate = { mariaSold with stage_id := none } ∧
    (handleRemoveContactFromPipeline [mariaSold] "m")[0]? =
      some { mariaSold with stage_id := none } :=
  ⟨(removeFromPipeline_spec [mariaSold] "m").1 mariaSold,
   (removeFromPipeline_spec [mariaSold] "m").2 0 mariaSold rfl⟩

/-- Claim C10: the drag-and-drop handler and the status-change control are
behaviourally equivalent — for the same contact id, target stage id, stage
list, prompt environment and clock they show the same prompt, issue the
identical contact update and abort under the identical condition. -/
theorem dragEnd_statusChange_equiv (stages : List Stage) (contacts : List Contact)
    (contactId newStageId : String) (promptParsed : Option ℚ) (now : String) :
    handleDragEnd stages contacts contactId (some newStageId) promptParsed now =
      handleContactStatusChange stages contacts contactId newStageId promptParsed now :=
  rfl

/-- Stage rows for the spec's reorder scenario ([A:1, B:2, C:3]). -/
def stageA : Stage := ⟨"a", "A", 1, false⟩

/-- Stage B of the reorder scenario. -/
def stageB : Stage := ⟨"b", "B", 2, false⟩

/-- Stage C of the reorder scenario. -/
def stageC : Stage := ⟨"c", "C", 3, false⟩

/-- Helper: one reposition call rewrites at most positions, so the
id-and-name view of the local stage list is unchanged. -/
theorem moveStage_localStages_idName (stages db : List Stage) (stageId : String)
    (dir : Direction) (fail1 fail2 : Bool) :
    ((handleMoveStage stages db stageId dir fail1 fail2).localStages).map idName =
      stages.map idName := by
  unfold handleMoveStage
  cases hfind : stages.find? (fun s => s.id == stageId) with
  | none => rfl
  | some cur =>
    simp only
    split
    · rfl
    · split
      · rfl
      · simp only [List.map_map]
        refine List.map_congr_left (fun s _ => ?_)
        simp only [Function.comp_apply, apply_ite idName]
        simp [idName]

/-- Helper: a whole sequence of reposition calls keeps the id-and-name view
of the stage list intact. -/
theorem runRepositions_idName (reqs : List (String × Direction))
    (stages : List Stage) :
    (runRepositions stages reqs).map idName = stages.map idName := by
  induction reqs generalizing stages with
  | nil => rfl
  | cons r rs ih =>
    show (runRepositions
        ((handleMoveStage stages stages r.1 r.2 false false).localStages) rs).map
          idName = stages.map idName
    rw [ih, moveStage_localStages_idName]

/-- Claim C4: with all persistence calls succeeding, repositioning a stage
that is first (going up) or last (going down) in position-sorted order is a
no-op and not an error; otherwise the stage and its neighbour in the
requested direction exchange position values while every other stage keeps
its id, name and position; and any sequence of reposition calls preserves
the stages and their names. -/
theorem reposition_spec (stages db : List Stage) (stageId : String)
    (dir : Direction) (cur : Stage)
    (hcur : stages.find? (fun s => s.id == stageId) = some cur) :
    (((dir = Direction.up ∧
        (sortedByPosition stages).findIdx (fun s => s.id == stageId) = 0) ∨
      (dir = Direction.down ∧
        (sortedByPosition stages).findIdx (fun s => s.id == stageId) =
          (sortedByPosition stages).length - 1)) →
      handleMoveStage stages db stageId dir false false = ⟨db, stages, false⟩) ∧
    (∀ adj : Stage,
      ¬ ((dir = Direction.up ∧
            (sortedByPosition stages).findIdx (fun s => s.id == stageId) = 0) ∨
         (dir = Direction.down ∧
            (sortedByPosition stages).findIdx (fun s => s.id == stageId) =
              (sortedByPosition stages).length - 1)) →
      (sortedByPosition stages).getD
        (if dir = Direction.up
         then (sortedByPosition stages).findIdx (fun s => s.id == stageId) - 1
         else (sortedByPosition stages).findIdx (fun s => s.id == stageId) + 1)
        defaultStage = adj →
      ∀ (k : Nat) (s : Stage), stages[k]? = some s →
        (handleMoveStage stages db stageId dir false false).localStages[k]? =
          some { s with position :=
            if s.id = cur.id then adj.position
            else if s.id = adj.id then cur.position
            else s.position }) ∧
    (∀ reqs : List (String × Direction),
      (runRepositions stages reqs).map idName = stages.map idName) := by
  refine ⟨fun hb => ?_, fun adj hnb hadj k s hk => ?_,
          fun reqs => runRepositions_idName reqs stages⟩
  · unfold handleMoveStage
    rw [hcur]
    simp only
    rw [if_pos hb]
  · unfold handleMoveStage
    rw [hcur]
    simp only
    rw [if_neg hnb, hadj]
    by_cases h1 : s.id = cur.id <;> by_cases h2 : s.id = adj.id <;>
      simp [List.getElem?_map, hk, h1, h2] <;> split_ifs <;> simp_all

/-- Claim C4 witness: on the spec scenario [A:1, B:2, C:3], moving A up is
a no-op without error, moving B up leaves A (slot 0 of the local list) with
position 2 — A and B swapped positions — and a sequence of reposition calls
keeps the stages and their names. -/
theorem reposition_spec_witness :
    handleMoveStage [stageA, stageB, stageC] [stageA, stageB, stageC] "a"
        Direction.up false false =
      ⟨[stageA, stageB, stageC], [stageA, stageB, stageC], false⟩ ∧
    (handleMoveStage [stageA, stageB, stageC] [stageA, stageB, stageC] "b"
        Direction.up false false).localStages[0]? =
      some { stageA with position := 2 } ∧
    (runRepositions [stageA, stageB, stageC]
        [("b", Direction.up), ("c", Direction.down)]).map idName =
      [stageA, stageB, stageC].map idName := by
  refine ⟨(reposition_spec [stageA, stageB, stageC] [stageA, stageB, stageC]
      "a" Direction.up stageA (by decide)).1 (Or.inl ⟨rfl, by decide⟩), ?_,
    (reposition_spec [stageA, stageB, stageC] [stageA, stageB, stageC]
      "a" Direction.up stageA (by decide)).2.2
      [("b", Direction.up), ("c", Direction.down)]⟩
  have h := (reposition_spec [stageA, stageB, stageC] [stageA, stageB, stageC]
      "b" Direction.up stageB (by decide)).2.1 stageA (by decide) (by decide)
      0 stageA rfl
  simpa using h

/-- Claim C5 counterexample: on stages A:1, B:2 (in sync with the store),
`reposition(B, up)` with the first row update succeeding and the second
failing persists a state that is neither the original nor the swapped one
(A:1, B:1 — only B's position changed), so the swap is not atomic. -/
theorem reposition_partialSwap_counterexample :
    (handleMoveStage [stageA, stageB] [stageA, stageB] "b"
        Direction.up false true).db ≠ [stageA, stageB] ∧
    (handleMoveStage [stageA, stageB] [stageA, stageB] "b"
        Direction.up false true).db ≠
      [{ stageA with position := 2 }, { stageB with position := 1 }] ∧
    (handleMoveStage [stageA, stageB] [stageA, stageB] "b"
        Direction.up false true).errorReported = true := by
  decide

/-- Claim C5 amended: when either of the two row updates fails an error is
surfaced and the local stage list stays unchanged; when both succeed no
error is reported and the persisted rows hold the completed swap (the moved
stage takes its neighbour's position and vice versa, all other rows
untouched).  A partial swap can still persist in the store when exactly one
update fails — it is surfaced, not silent (see the counterexample). -/
theorem reposition_failure_spec (stages db : List Stage) (stageId : String)
    (dir : Direction) (fail1 fail2 : Bool) (cur adj : Stage)
    (hcur : stages.find? (fun s => s.id == stageId) = some cur)
    (hnb : ¬ ((dir = Direction.up ∧
          (sortedByPosition stages).findIdx (fun s => s.id == stageId) = 0) ∨
        (dir = Direction.down ∧
          (sortedByPosition stages).findIdx (fun s => s.id == stageId) =
            (sortedByPosition stages).length - 1)))
    (hadj : (sortedByPosition stages).getD
        (if dir = Direction.up
         then (sortedByPosition stages).findIdx (fun s => s.id == stageId) - 1
         else (sortedByPosition stages).findIdx (fun s => s.id == stageId) + 1)
        defaultStage = adj) :
    (fail1 = true ∨ fail2 = true →
      (handleMoveStage stages db stageId dir fail1 fail2).errorReported = true ∧
      (handleMoveStage stages db stageId dir fail1 fail2).localStages = stages) ∧
    (fail1 = false → fail2 = false →
      (handleMoveStage stages db stageId dir fail1 fail2).errorReported = false ∧
      ∀ (k : Nat) (s : Stage), db[k]? = some s →
        (handleMoveStage stages db stageId dir fail1 fail2).db[k]? =
          some { s with position :=
            if s.id = adj.id then cur.position
            else if s.id = cur.id then adj.position
            else s.position }) := by
  constructor
  · intro hf
    unfold handleMoveStage
    rw [hcur]
    simp only
    rw [if_neg hnb]
    rcases hf with hf | hf <;> subst hf <;> simp
  · intro h1 h2
    subst h1; subst h2
    unfold handleMoveStage
    rw [hcur]
    simp only
    rw [if_neg hnb, hadj]
    refine ⟨by simp, fun k s hk => ?_⟩
    by_cases ha : s.id = adj.id <;> by_cases hc : s.id = cur.id <;>
      simp [updatePosition, List.getElem?_map, hk, ha, hc] <;>
        split_ifs <;> simp_all

/-- Claim C5 amended witness: moving B up over A with the second update
failing reports an error and rolls back nothing locally; with both updates
succeeding there is no error and row 0 of the store (A) now holds B's old
position 2. -/
theorem reposition_failure_witness :
    ((handleMoveStage [stageA, stageB, stageC] [stageA, stageB, stageC] "b"
        Direction.up false true).errorReported = true ∧
     (handleMoveStage [stageA, stageB, stageC] [stageA, stageB, stageC] "b"
        Direction.up false true).localStages = [stageA, stageB, stageC]) ∧
    ((handleMoveStage [stageA, stageB, stageC] [stageA, stageB, stageC] "b"
        Direction.up false false).errorReported = false ∧
     (handleMoveStage [stageA, stageB, stageC] [stageA, stageB, stageC] "b"
        Direction.up false false).db[0]? = some { stageA with position := 2 }) := by
  refine ⟨(reposition_failure_spec [stageA, stageB, stageC] [stageA, stageB, stageC]
      "b" Direction.up false true stageB stageA (by decide) (by decide)
      (by decide)).1 (Or.inr rfl), ?_⟩
  have h := (reposition_failure_spec [stageA, stageB, stageC]
      [stageA, stageB, stageC] "b" Direction.up false false stageB stageA
      (by decide) (by decide) (by decide)).2 rfl rfl
  exact ⟨h.1, by simpa using h.2 0 stageA rfl⟩

/-- Claim C6 counterexample: a default stage ("Aguardando atendimento",
`is_default = true`) with no contact referencing it is deleted outright —
no ValidationError, no error of any kind, the row is gone.  The handler
contains no `is_default` check. -/
theorem deleteStage_default_counterexample :
    handleDeleteStage [⟨"s1", "Aguardando atendimento", 1, true⟩] [] "s1" =
      ⟨[], false⟩ := by
  decide

/-- Claim C6 amended: deleteStage fails (with an error notification) when
some contact references the stage and otherwise succeeds, removing exactly
the stages with that id — regardless of `is_default`; default stages are
protected only by the UI, which does not render their delete control. -/
theorem deleteStage_spec (stages : List Stage) (contacts : List Contact)
    (stageId : String) :
    ((∃ c ∈ contacts, c.stage_id = some stageId) →
      handleDeleteStage stages contacts stageId = ⟨stages, true⟩) ∧
    ((∀ c ∈ contacts, c.stage_id ≠ some stageId) →
      (handleDeleteStage stages contacts stageId).errorReported = false ∧
      ∀ t : Stage, t ∈ (handleDeleteStage stages contacts stageId).stages ↔
        (t ∈ stages ∧ t.id ≠ stageId)) ∧
    (∀ s : Stage, deleteButtonRendered s = !s.is_default) := by
  refine ⟨fun ⟨c, hc, hcs⟩ => ?_, fun hno => ?_, fun s => rfl⟩
  · have : contacts.any (fun contact => contact.stage_id == some stageId) = true := by
      simp only [List.any_eq_true, beq_iff_eq]
      exact ⟨c, hc, hcs⟩
    simp [handleDeleteStage, this]
  · have : contacts.any (fun contact => contact.stage_id == some stageId) = false := by
      simp only [List.any_eq_false, beq_iff_eq]
      exact hno
    refine ⟨by simp [handleDeleteStage, this], fun t => ?_⟩
    simp [handleDeleteStage, this, List.mem_filter, bne_iff_ne]

/-- Claim C6 amended witness: deleting the won stage while Joao sits in it
is refused with an error; deleting it once no contact references it
succeeds and removes it. -/
theorem deleteStage_spec_witness :
    handleDeleteStage [stageWon] [{ joao with stage_id := some "w" }] "w" =
      ⟨[stageWon], true⟩ ∧
    ((handleDeleteStage [stageWon] [joao] "w").errorReported = false ∧
      ¬ stageWon ∈ (handleDeleteStage [stageWon] [joao] "w").stages) :=
  ⟨(deleteStage_spec [stageWon] [{ joao with stage_id := some "w" }] "w").1
     ⟨{ joao with stage_id := some "w" }, by decide, rfl⟩,
   ((deleteStage_spec [stageWon] [joao] "w").2.1 (by decide)).1,
   fun hmem =>
     ((((deleteStage_spec [stageWon] [joao] "w").2.1 (by decide)).2 stageWon).1 hmem).2 rfl⟩

/-- Helper: the seed of a left max-fold bounds the fold from below. -/
theorem le_foldl_max (l : List Int) (a : Int) : a ≤ l.foldl max a := by
  induction l generalizing a with
  | nil => exact le_refl a
  | cons x l ih => exact le_trans (le_max_left a x) (ih (max a x))

/-- Helper: every member of the list is bounded by the left max-fold. -/
theorem mem_le_foldl_max (l : List Int) (a x : Int) (hx : x ∈ l) :
    x ≤ l.foldl max a := by
  induction l generalizing a with
  | nil => cases hx
  | cons y l ih =>
    rcases List.mem_cons.mp hx with h | h
    · subst h
      exact le_trans (le_max_right a x) (le_foldl_max l (max a x))
    · exact ih (max a y) h

/-- Claim C7 counterexample: adding a stage with a blank name hits the
silent early return `if (!newStageName.trim()) return;` — nothing is
inserted and no error notification (ValidationError) is reported. -/
theorem addStage_blank_counterexample :
    handleAddStage [] " " "u" = ⟨none, false⟩ ∧
    (handleAddStage [] " " "u").errorReported = false := by
  constructor <;> rfl

/-- Claim C7 amended: a blank name yields a silent rejection (nothing
inserted, nothing reported); a non-blank name inserts a row with the given
name and owner, `is_default = false` and
`position = max(existing positions, 0) + 1`, which is strictly greater
than every existing position. -/
theorem addStage_spec (stages : List Stage) (name userId : String) :
    (isBlank name = true → handleAddStage stages name userId = ⟨none, false⟩) ∧
    (isBlank name = false → ∃ row : NewStageRow,
      handleAddStage stages name userId = ⟨some row, false⟩ ∧
      row.name = name ∧ row.is_default = false ∧ row.user_id = userId ∧
      row.position = (stages.map (fun s => s.position)).foldl max 0 + 1 ∧
      ∀ s ∈ stages, s.position < row.position) := by
  constructor
  · intro h
    simp [handleAddStage, h]
  · intro h
    refine ⟨⟨name, (stages.map (fun s => s.position)).foldl max 0 + 1, userId, false⟩,
      by simp [handleAddStage, h], rfl, rfl, rfl, rfl, fun s hs => ?_⟩
    exact lt_of_le_of_lt
      (mem_le_foldl_max (stages.map (fun s => s.position)) 0 s.position
        (List.mem_map_of_mem (fun s => s.position) hs))
      (lt_add_one _)

/-- Claim C7 amended witness: a blank name inserts nothing; the name
"Novos" over stages at positions 1 and 2 is inserted at position 3,
above both. -/
theorem addStage_spec_witness :
    handleAddStage [stageA, stageB] "  " "u" = ⟨none, false⟩ ∧
    ∃ row : NewStageRow,
      handleAddStage [stageA, stageB] "Novos" "u" = ⟨some row, false⟩ ∧
      row.name = "Novos" ∧ row.is_default = false ∧ row.user_id = "u" ∧
      row.position = 3 ∧ ∀ s ∈ [stageA, stageB], s.position < row.position :=
  ⟨(addStage_spec [stageA, stageB] "  " "u").1 (by decide),
   (addStage_spec [stageA, stageB] "Novos" "u").2 (by decide)⟩

/-- Claim C8 counterexample: renaming stage "s1" to the empty string
succeeds — the empty name is written and no ValidationError is reported —
and renaming an absent stage id reports no NotFoundError either. -/
theorem renameStage_counterexample :
    handleEditStageName [⟨"s1", "Novos", 1, false⟩] "s1" "" =
      ⟨[⟨"s1", "", 1, false⟩], false⟩ ∧
    handleEditStageName [⟨"s1", "Novos", 1, false⟩] "ghost" "X" =
      ⟨[⟨"s1", "Novos", 1, false⟩], false⟩ := by
  constructor <;> decide

/-- Claim C8 amended: renameStage performs no existence check and no
emptiness check and never reports an error; it rewrites exactly the name of
the stages whose id matches (a no-op when none does), leaving every id,
position and default flag unchanged. -/
theorem renameStage_spec (stages : List Stage) (stageId newName : String) :
    (handleEditStageName stages stageId newName).errorReported = false ∧
    ∀ (k : Nat) (s : Stage), stages[k]? = some s →
      (handleEditStageName stages stageId newName).stages[k]? =
        some { s with name := if s.id = stageId then newName else s.name } := by
  refine ⟨rfl, fun k s hk => ?_⟩
  simp only [handleEditStageName, List.getElem?_map, hk, Option.map_some']
  split <;> simp_all

/-- Claim C8 amended witness: renaming "a" to the empty string rewrites
slot 0's name to "" (no error), and renaming an absent id leaves slot 0
untouched (still no error). -/
theorem renameStage_spec_witness :
    (handleEditStageName [stageA] "a" "").errorReported = false ∧
    (handleEditStageName [stageA] "a" "").stages[0]? =
      some { stageA with name := "" } ∧
    (handleEditStageName [stageA] "ghost" "X").stages[0]? = some stageA :=
  ⟨(renameStage_spec [stageA] "a" "").1,
   (renameStage_spec [stageA] "a" "").2 0 stageA rfl,
   (renameStage_spec [stageA] "ghost" "X").2 0 stageA rfl⟩

end Crm
